import Mathlib

/-!
Verification development for the frost consensus-orchestration core
(`src/lib/frost.js`).  The JavaScript source is shallowly embedded:

* JavaScript values produced by `JSON.parse` are modelled by the inductive
  `Json` (numeric literals are modelled as integers; no property below
  depends on non-integer numerics).
* External crypto primitives (`common.hash`, `ed25519.Sign`, `ed25519.Verify`)
  are abstract parameters collected in a `Crypto` structure; theorems are
  proved for every `Crypto`, and concrete witnesses instantiate a toy one.
* JavaScript exceptions are modelled with `Except Unit`; every `try/catch`
  of the source appears as an explicit `match` on the `Except`, so the
  embedded functions are total by construction.
* The callback architecture is modelled by pure state-passing: `send` and
  the protocol `value` handler map a `NodeState` to a new `NodeState`
  together with their observable outputs (engine `request` calls, `reclaim`
  calls, deferred subscriber dispatch, error logs).  The `process.nextTick`
  deferral is modelled by returning the subscriber invocations as a list
  (scheduled, not performed).
-/

namespace Frost

/-- A JavaScript value as produced by `JSON.parse` (numbers as integers). -/
inductive Json where
  | null : Json
  | bool : Bool → Json
  | num : Int → Json
  | str : String → Json
  | arr : List Json → Json
  | obj : List (String × Json) → Json

/-- Last-wins field lookup: `JSON.parse` keeps the last duplicate key. -/
def lookupLast (k : String) : List (String × Json) → Option Json
  | [] => none
  | (k', v) :: rest =>
    match lookupLast k rest with
    | some r => some r
    | none => if k' = k then some v else none

/-- JavaScript property access `j[k]`: `none` models `undefined`. -/
def getField (j : Json) (k : String) : Option Json :=
  match j with
  | .obj fs => lookupLast k fs
  | _ => none

/-- The field `k` of `j` when it is present and a string (`typeof === 'string'`). -/
def getStr (j : Json) (k : String) : Option String :=
  match getField j k with
  | some (.str s) => some s
  | _ => none

/-- JavaScript falsiness of a parsed value (`!cast`). -/
def isFalsy : Json → Bool
  | .null => true
  | .bool b => !b
  | .num n => n == 0
  | .str s => s == ""
  | _ => false

/-- Abstract external crypto: `common.hash`, detached Ed25519 sign/verify.
`verify msg sig pk` and `sign msg sk` operate on the base64/hex strings the
source passes around. -/
structure Crypto where
  hash : List String → String
  sign : String → String → String
  verify : String → String → String → Bool

/-- The four cast fields when all are present as strings, in source order
`(sha, sig, prv, pay)`; `none` when the value is falsy or some field is
missing or not a string (the first guard of `verify_cast`). -/
def castFields (cast : Json) : Option (String × String × String × String) :=
  if isFalsy cast then none
  else
    match getStr cast "sha", getStr cast "sig", getStr cast "prv", getStr cast "pay" with
    | some sha, some sig, some prv, some pay => some (sha, sig, prv, pay)
    | _, _, _, _ => none

/-- Embedding of `verify_cast(from, channel, cast)` (frost.js:121-141) for a
string sender key: field/shape guard, recomputed-hash check, signature check. -/
def verify_cast (C : Crypto) (sender channel : String) (cast : Json) : Bool :=
  match castFields cast with
  | none => false
  | some (sha, sig, prv, pay) =>
    if sha ≠ C.hash [prv, channel, pay] then false
    else C.verify sha sig sender

/-- `verify_cast` as called with a possibly-undefined sender
(`slot.id().split(':')[1]` may be `undefined`).  With an undefined sender the
source throws at `new Buffer(from, 'base64')`, which is reached only after
the shape and hash checks pass; `Except.error` models that throw. -/
def verify_cast_opt (C : Crypto) (sender : Option String) (channel : String)
    (cast : Json) : Except Unit Bool :=
  match sender with
  | some f => .ok (verify_cast C f channel cast)
  | none =>
    match castFields cast with
    | none => .ok false
    | some (sha, _, prv, pay) =>
      if sha ≠ C.hash [prv, channel, pay] then .ok false
      else .error ()

/-- A cast built by this node (all four fields are strings by construction). -/
structure Cast where
  sha : String
  sig : String
  prv : String
  pay : String

/-- Embedding of `generate_cast(channel, prv, payload)` (frost.js:151-163):
`sha := hash([prv, channel, pay])`, then `sig := sign(sha, local_sk)`.
A pure function of its arguments: it does not take (hence cannot read or
write) the cast store. -/
def generate_cast (C : Crypto) (sk channel prv payload : String) : Cast :=
  let sha := C.hash [prv, channel, payload]
  { sha := sha, sig := C.sign sha sk, prv := prv, pay := payload }

/-- Serialization of a generated cast (`JSON.stringify`), field order as in
the source object literal. -/
def castToJson (c : Cast) : Json :=
  .obj [("sha", .str c.sha), ("sig", .str c.sig), ("prv", .str c.prv), ("pay", .str c.pay)]

/-- A ballot `{n, x}`; `x` is the `JSON.parse` result of the value string
(`none` models a string that is not parseable JSON, on which `JSON.parse`
throws). -/
structure Ballot where
  n : Int
  x : Option Json

/-- The slot view the ballot callbacks use: `slot.id()`, `slot.ballot()`
(`none` when the slot has no current ballot), `slot.create_time()`. -/
structure Slot where
  id : String
  ballot : Option Ballot
  create_time : Int

/-- Splitting a character list at a separator; `[[]]` on the empty list,
matching JavaScript `''.split(':') == ['']`. -/
def splitChar (sep : Char) : List Char → List (List Char)
  | [] => [[]]
  | c :: cs =>
    if c = sep then [] :: splitChar sep cs
    else
      match splitChar sep cs with
      | [] => [[c]]
      | g :: gs => (c :: g) :: gs

/-- JavaScript `s.split(sep)` for a single-character separator. -/
def jsSplit (s : String) (sep : Char) : List String :=
  (splitChar sep s.toList).map (fun l => String.mk l)

/-- JavaScript `s.indexOf(c) !== -1`. -/
def jsContains (s : String) (c : Char) : Bool :=
  s.toList.contains c

/-- JavaScript object-key coercion: indexing with `undefined` uses the key
`"undefined"`. -/
def keyOf : Option String → String
  | some s => s
  | none => "undefined"

/-- The channel component of a slot id: `slot.split(':')[0]` (JavaScript
`split` never yields an empty array, so index 0 always exists). -/
def slotChannel (slotId : String) : String :=
  (jsSplit slotId ':').headD ""

/-- The sender component of a slot id: `slot.split(':')[1]`; `none` models
`undefined` when the id contains no `':'`. -/
def slotSender (slotId : String) : Option String :=
  (jsSplit slotId ':').get? 1

/-- Embedding of `ballot_generator(slot, x)` (frost.js:174-180). -/
def ballot_generator (slot : Slot) (x : Option Json) : Ballot :=
  match slot.ballot with
  | some b => { n := b.n + 1, x := x }
  | none => { n := 0, x := x }

/-- Embedding of `ballot_verifier(slot, b, node)` (frost.js:190-215).
`pv` is `my.verifier` (the application payload verifier, receiving the raw
`from`, `channel`, `cast.pay` values); `now` is `Date.now()`.  The
`Except Unit Bool` models the `try` block: `return false` inside the `try`
exits the function before the rate gate; only falling through the `try`
reaches the rate gate. -/
def ballot_verifier (C : Crypto) (pv : Option String → String → Option Json → Bool)
    (now : Int) (slot : Slot) (b : Ballot) : Bool :=
  let channel := slotChannel slot.id
  let sender := slotSender slot.id
  let tryRes : Except Unit Bool :=
    match b.x with
    | none => .error ()
    | some cast =>
      match verify_cast_opt C sender channel cast with
      | .error e => .error e
      | .ok false => .ok false
      | .ok true =>
        if pv sender channel (getField cast "pay") = false then .ok false
        else .ok true
  match tryRes with
  | .error _ => false
  | .ok false => false
  | .ok true =>
    if now < slot.create_time + b.n * 1000 then false else true

/-- JavaScript `cast.prv.length > 0`: throws on `undefined`/`null`, uses the
string or array length, and is `undefined > 0 = false` on every other value. -/
def prvNonempty : Option Json → Except Unit Bool
  | none => .error ()
  | some .null => .error ()
  | some (.str s) => .ok (decide (0 < s.length))
  | some (.arr xs) => .ok (decide (0 < xs.length))
  | some _ => .ok false

/-- JavaScript strict equality `===` between two parsed values.  Arrays and
objects compare by reference; the two sides here always come from distinct
`JSON.parse` calls, so composite values are never identical. -/
def jsStrictEq : Json → Json → Bool
  | .null, .null => true
  | .bool a, .bool b => a == b
  | .num a, .num b => a == b
  | .str a, .str b => a == b
  | _, _ => false

/-- Strict equality lifted to possibly-undefined values
(`undefined === undefined` holds). -/
def jsStrictEqOpt : Option Json → Option Json → Bool
  | none, none => true
  | some a, some b => jsStrictEq a b
  | _, _ => false

/-- The cast store `my.casts`, flattened: `(channel, sender) ↦ latest entry`.
`none` models an absent entry (channel map or sender key missing). -/
def Store := String → String → Option Json

/-- Point update of the store. -/
def storeSet (s : Store) (c f : String) (v : Json) : Store :=
  fun c' f' => if c' = c ∧ f' = f then some v else s c' f'

/-- Embedding of `ballot_acceptor(slot, b, node)` (frost.js:226-254).
`pa` is `my.acceptor`; `casts` is the current store.  The `Except` models the
`try` block; the `&&`/`||` short-circuit of the chain-continuity condition is
preserved. -/
def ballot_acceptor (pa : Option String → String → Option Json → Bool)
    (casts : Store) (slot : Slot) (b : Ballot) : Bool :=
  let channel := slotChannel slot.id
  let sender := slotSender slot.id
  let tryRes : Except Unit Bool :=
    match b.x with
    | none => .error ()
    | some cast =>
      match prvNonempty (getField cast "prv") with
      | .error e => .error e
      | .ok ne =>
        let chainFail := ne && (match casts channel (keyOf sender) with
          | none => true
          | some e => ! jsStrictEqOpt (getField e "sha") (getField cast "prv"))
        if chainFail then .ok false
        else if pa sender channel (getField cast "pay") = false then .ok false
        else .ok true
  match tryRes with
  | .error _ => false
  | .ok r => r

/-- Embedding of `def_verifier` (frost.js:271-273). -/
def def_verifier (_ : Option String) (_ : String) (_ : Option Json) : Bool :=
  true

/-- Embedding of `def_acceptor` (frost.js:288-290). -/
def def_acceptor (_ : Option String) (_ : String) (_ : Option Json) : Bool :=
  true

/-- The node state the claims range over: the cast store `my.casts` and the
subscriber table `my.receivers` (`α` is the opaque type of subscriber
callbacks, kept abstract because only their identity and order matter). -/
structure NodeState (α : Type) where
  casts : Store
  receivers : String → List α

/-- The placeholder entry `send` installs when `(channel, self)` has no store
entry yet (frost.js:469-476). -/
def placeholder : Json :=
  .obj [("sha", .str ""), ("sig", .null), ("prv", .null), ("pay", .null)]

/-- Observable outcome of a `send` call: the error handed to the user
callback immediately (if any) and the engine `request` issued (slot id and
serialized cast), `none` when no engine call is made.  The inner completion
callback of `request` only forwards the engine result to the user callback
and touches no node state (frost.js:490-501). -/
structure SendOut where
  cbErr : Option String
  request : Option (String × Json)

/-- JavaScript string coercion of a store entry's `sha` (used where the
source reads `entry.sha` for hashing or string concatenation): the string
itself when present, `"undefined"` otherwise (no reachable entry lacks a
string `sha`: externalized casts are verified and the placeholder carries
`""`). -/
def jsShaStr (e : Json) : String :=
  (getStr e "sha").getD "undefined"

/-- Embedding of `send(channel, payload, cb_)` (frost.js:459-502).
Order matters and follows the source: the `':'` channel check first, then the
unconditional creation of the placeholder entry when absent, then the
payload-type check, then `generate_cast` and the engine `request`. -/
def send (C : Crypto) (pk sk : String) (st : NodeState α) (channel : String)
    (payload : Json) : NodeState α × SendOut :=
  if jsContains channel ':' then (st, { cbErr := some "invalid_channel", request := none })
  else
    let st1 : NodeState α :=
      if (st.casts channel pk).isNone
      then { st with casts := storeSet st.casts channel pk placeholder }
      else st
    let out : SendOut :=
      match payload with
      | .str pay =>
        let prv := jsShaStr ((st1.casts channel pk).getD Json.null)
        let cast := generate_cast C sk channel prv pay
        let slot := channel ++ ":" ++ pk ++ ":" ++ cast.sha
        { cbErr := none, request := some (slot, castToJson cast) }
      | _ => { cbErr := some "invalid_payload", request := none }
    (st1, out)

/-- Embedding of `receive(channel, cb_)` (frost.js:445-448): append the
subscriber to the channel's list. -/
def receive (st : NodeState α) (channel : String) (cb : α) : NodeState α :=
  { st with receivers := fun c => if c = channel then st.receivers c ++ [cb] else st.receivers c }

/-- Observable outcome of one protocol `value` event: the `reclaim` calls
issued to the engine, the deferred subscriber invocations
`(callback, from, cast.sha, cast.pay)` in registration order (scheduled via
`process.nextTick`, modelled as a list), and the error log lines. -/
structure ValueOut (α : Type) where
  reclaims : List String
  dispatch : List (α × String × Option Json × Option Json)
  logs : List String

/-- Embedding of the protocol `value` event handler (frost.js:535-567).
`value` is the `JSON.parse` result of `v.value` (`none` when parsing throws).
When the slot id has no second `':'`-separated component the sender is
`undefined` and `verify_cast` either returns false or throws at
`new Buffer(undefined, 'base64')`; both paths land in the `catch`, which
logs `invalid_cast` and leaves the state untouched. -/
def handle_value (C : Crypto) (st : NodeState α) (slot : String)
    (value : Option Json) : NodeState α × ValueOut α :=
  let channel := slotChannel slot
  let invalid : NodeState α × ValueOut α :=
    (st, { reclaims := [], dispatch := [], logs := ["invalid_cast"] })
  match value with
  | none => invalid
  | some cast =>
    match slotSender slot with
    | none => invalid
    | some f =>
      if verify_cast C f channel cast then
        let reclaims := match st.casts channel f with
          | some e => [channel ++ ":" ++ f ++ ":" ++ jsShaStr e]
          | none => []
        ({ st with casts := storeSet st.casts channel f cast },
         { reclaims := reclaims,
           dispatch := (st.receivers channel).map
             (fun cb => (cb, f, getField cast "sha", getField cast "pay")),
           logs := [] })
      else invalid

/-- A run state extended with the ghost history flag `extd c f`, true once a
cast has been externalized (accepted by the `value` handler) for the pair
`(c, f)` during the run.  The flag is pure history: it feeds back into no
computation. -/
structure TraceState (α : Type) where
  node : NodeState α
  extd : String → String → Bool

/-- An externally triggered event of a run: a user `send` call or a protocol
`value` (externalization) event. -/
inductive Ev where
  | sendEv (channel : String) (payload : Json)
  | valueEv (slot : String) (value : Option Json)

/-- Point update of the ghost externalization flag. -/
def extdSet (g : String → String → Bool) (c f : String) : String → String → Bool :=
  fun c' f' => if c' = c ∧ f' = f then true else g c' f'

/-- One step of a run; the second component is the list of `reclaim` calls
the step issues to the engine.  The ghost flag is set exactly when the
`value` handler accepts the externalized cast (its log is empty). -/
def stepEv (C : Crypto) (pk sk : String) (st : TraceState α) :
    Ev → TraceState α × List String
  | .sendEv channel payload =>
    let r := send C pk sk st.node channel payload
    ({ node := r.1, extd := st.extd }, [])
  | .valueEv slot value =>
    let r := handle_value C st.node slot value
    let extd :=
      if r.2.logs = [] then
        extdSet st.extd (slotChannel slot) (keyOf (slotSender slot))
      else st.extd
    ({ node := r.1, extd := extd }, r.2.reclaims)

/-- A toy instantiation of the external crypto, used only in concrete
witnesses and counterexamples. -/
def toyCrypto : Crypto where
  hash := fun l => "h." ++ String.intercalate "." l
  sign := fun m _ => "sg." ++ m
  verify := fun m s _ => s == "sg." ++ m

/-- The empty node state (fresh run), with natural numbers as opaque
subscriber callbacks. -/
def emptyNode : NodeState Nat :=
  { casts := fun _ _ => none, receivers := fun _ => [] }

/-- The empty run state: fresh node, no externalization recorded. -/
def emptyTrace : TraceState Nat :=
  { node := emptyNode, extd := fun _ _ => false }

/-- A concrete cast valid under `toyCrypto` for channel `"c"`, first in its
chain (`prv = ""`), payload `"hi"`. -/
def goodCast : Json :=
  .obj [("sha", .str "h..c.hi"), ("sig", .str "sg.h..c.hi"),
        ("prv", .str ""), ("pay", .str "hi")]

/-- A concrete cast whose recomputed hash does not match its `sha` under
`toyCrypto` (so `verify_cast` rejects it). -/
def badCast : Json :=
  .obj [("sha", .str "x"), ("sig", .str "y"), ("prv", .str ""), ("pay", .str "p")]

/-- A concrete slot for witnesses: fresh (no current ballot), created at
time 0. -/
def slotW : Slot :=
  { id := "c:PK:x", ballot := none, create_time := 0 }

/-- A concrete node state with one store entry at `("c", "PK")` (the
placeholder) and two subscribers on channel `"c"`. -/
def nodeW : NodeState Nat :=
  { casts := fun c f => if c = "c" ∧ f = "PK" then some placeholder else none,
    receivers := fun c => if c = "c" then [1, 2] else [] }

/-! ## Helper lemmas -/

/-- A successful `getStr` pins the underlying field to a string value. -/
theorem getStr_eq_some {j : Json} {k s : String} (h : getStr j k = some s) :
    getField j k = some (.str s) := by
  unfold getStr at h
  split at h
  · next heq => cases h; exact heq
  · cases h

/-- Successful `castFields` pins all four fields to string values. -/
theorem castFields_getField {cast : Json} {sha sig prv pay : String}
    (h : castFields cast = some (sha, sig, prv, pay)) :
    getField cast "sha" = some (.str sha) ∧ getField cast "sig" = some (.str sig) ∧
    getField cast "prv" = some (.str prv) ∧ getField cast "pay" = some (.str pay) := by
  unfold castFields at h
  split at h
  · cases h
  · split at h
    · next h1 h2 h3 h4 =>
      cases h
      exact ⟨getStr_eq_some h1, getStr_eq_some h2, getStr_eq_some h3, getStr_eq_some h4⟩
    · cases h

/-! ## Claims -/

/-- C5: for every slot and value `x`, `ballot_generator slot x` returns
`{n := 0, x}` when the slot has no current ballot and
`{n := slot.ballot.n + 1, x}` otherwise, so the generated `n` strictly
exceeds the current ballot's `n` on every retry. -/
theorem claim_C5_ballot_generator (slot : Slot) (x : Option Json) :
    (slot.ballot = none → ballot_generator slot x = { n := 0, x := x }) ∧
    (∀ b, slot.ballot = some b →
      ballot_generator slot x = { n := b.n + 1, x := x } ∧
      b.n < (ballot_generator slot x).n) := by
  constructor
  · intro h
    simp [ballot_generator, h]
  · intro b h
    refine ⟨by simp [ballot_generator, h], ?_⟩
    simp [ballot_generator, h]

/-- Witness for C5 at a concrete fresh slot. -/
theorem claim_C5_witness :
    ballot_generator slotW none = { n := 0, x := none } :=
  (claim_C5_ballot_generator slotW none).1 rfl

/-- C6: `verify_cast` returns true exactly when all four fields are present
as strings, the recomputed hash `H([prv, channel, pay])` equals `sha`, and
`sig` verifies under the sender's public key over `sha`; in particular it
returns false whenever any field is missing or non-string, the hash differs,
or the signature fails. -/
theorem claim_C6_verify_cast (C : Crypto) (sender channel : String) (cast : Json) :
    verify_cast C sender channel cast = true ↔
      ∃ sha sig prv pay, castFields cast = some (sha, sig, prv, pay) ∧
        sha = C.hash [prv, channel, pay] ∧ C.verify sha sig sender = true := by
  unfold verify_cast
  cases h : castFields cast with
  | none => simp [h]
  | some t =>
    obtain ⟨sha, sig, prv, pay⟩ := t
    by_cases hsha : sha = C.hash [prv, channel, pay]
    · simp only [h, hsha, ne_eq, not_true_eq_false, if_false]
      constructor
      · intro hv
        exact ⟨C.hash [prv, channel, pay], sig, prv, pay, rfl, rfl, hv⟩
      · rintro ⟨sha', sig', prv', pay', heq, hh, hv⟩
        cases heq
        exact hv
    · simp only [h, hsha, ne_eq, not_false_eq_true, if_true]
      constructor
      · intro hf
        cases hf
      · rintro ⟨sha', sig', prv', pay', heq, hh, hv⟩
        cases heq
        exact absurd hh hsha

/-- C7: `generate_cast` fills `prv` and `pay` from its arguments, computes
`sha = H([prv, channel, pay])` and `sig = sign(sha, local_sk)`, so the
signature verifies under the local public key whenever the keypair is sound;
it is a pure function of its arguments and takes no store. -/
theorem claim_C7_generate_cast (C : Crypto) (sk pk channel prv payload : String)
    (hkey : ∀ m, C.verify m (C.sign m sk) pk = true) :
    (generate_cast C sk channel prv payload).prv = prv ∧
    (generate_cast C sk channel prv payload).pay = payload ∧
    (generate_cast C sk channel prv payload).sha = C.hash [prv, channel, payload] ∧
    (generate_cast C sk channel prv payload).sig =
      C.sign (generate_cast C sk channel prv payload).sha sk ∧
    C.verify (generate_cast C sk channel prv payload).sha
      (generate_cast C sk channel prv payload).sig pk = true :=
  ⟨rfl, rfl, rfl, rfl, hkey (C.hash [prv, channel, payload])⟩

/-- Witness for C7 under the toy crypto, whose sign/verify pair is sound for
the keypair `("SK", "PK")`. -/
theorem claim_C7_witness :
    (generate_cast toyCrypto "SK" "c" "" "hi").sha = toyCrypto.hash ["", "c", "hi"] ∧
    toyCrypto.verify (generate_cast toyCrypto "SK" "c" "" "hi").sha
      (generate_cast toyCrypto "SK" "c" "" "hi").sig "PK" = true := by
  have h := claim_C7_generate_cast toyCrypto "SK" "PK" "c" "" "hi"
    (fun m => by simp [toyCrypto])
  exact ⟨h.2.2.1, h.2.2.2.2⟩

/-- C4: for a ballot whose value parses to a cast passing `verify_cast` and
the application payload verifier, `ballot_verifier` returns true exactly when
the current time has reached `slot.create_time + ballot.n * 1000` ms, and
false strictly before that instant. -/
theorem claim_C4_rate_gate (C : Crypto) (pv : Option String → String → Option Json → Bool)
    (now : Int) (slot : Slot) (b : Ballot) (cast : Json)
    (hx : b.x = some cast)
    (hvc : verify_cast_opt C (slotSender slot.id) (slotChannel slot.id) cast = .ok true)
    (hpv : pv (slotSender slot.id) (slotChannel slot.id)
      (getField cast "pay") = true) :
    ballot_verifier C pv now slot b = true ↔ slot.create_time + b.n * 1000 ≤ now := by
  have hred : ballot_verifier C pv now slot b =
      (if now < slot.create_time + b.n * 1000 then false else true) := by
    simp [ballot_verifier, hx, hvc, hpv]
  rw [hred]
  by_cases hlt : now < slot.create_time + b.n * 1000
  · simp only [hlt, if_true]
    constructor
    · intro hfalse
      cases hfalse
    · intro hle
      omega
  · simp only [hlt, if_false]
    constructor
    · intro _
      omega
    · intro _
      trivial

/-- Witness for C4 at a concrete slot created at time 0 and ballot counter 2:
at `now = 2000` the gate has just opened. -/
theorem claim_C4_witness :
    ballot_verifier toyCrypto def_verifier 2000
        { id := "c:PK:x", ballot := none, create_time := 0 }
        { n := 2, x := some goodCast } = true ↔
      (0 : Int) + 2 * 1000 ≤ 2000 :=
  claim_C4_rate_gate toyCrypto def_verifier 2000
    { id := "c:PK:x", ballot := none, create_time := 0 }
    { n := 2, x := some goodCast } goodCast rfl rfl rfl

/-- C9: when the externalized value does not parse as a cast, or the slot id
carries no sender, or the parsed cast fails `verify_cast` under the slot's
sender and channel, the `value` handler leaves the node state (store and
subscribers) unchanged, issues no reclaim, schedules no subscriber
invocation, and logs exactly one `invalid_cast` error. -/
theorem claim_C9_invalid_cast {α : Type} (C : Crypto) (st : NodeState α)
    (slot : String) (value : Option Json)
    (h : ∀ cast f, value = some cast → slotSender slot = some f →
      verify_cast C f (slotChannel slot) cast = false) :
    handle_value C st slot value =
      (st, { reclaims := [], dispatch := [], logs := ["invalid_cast"] }) := by
  unfold handle_value
  cases value with
  | none => rfl
  | some cast =>
    cases hf : slotSender slot with
    | none => simp [hf]
    | some f =>
      have hv := h cast f rfl hf
      simp [hf, hv]

/-- Witness for C9: a cast whose recomputed hash mismatches its `sha` is
dropped with `invalid_cast` and the state (store entry, subscribers) is
untouched. -/
theorem claim_C9_witness :
    handle_value toyCrypto nodeW "c:PK:x" (some badCast) =
      (nodeW, { reclaims := [], dispatch := [], logs := ["invalid_cast"] }) :=
  claim_C9_invalid_cast toyCrypto nodeW "c:PK:x" (some badCast)
    (fun cast f hc hf => by
      cases hc
      rw [show slotSender "c:PK:x" = some "PK" from rfl] at hf
      cases hf
      rfl)

/-- C1 (amended): `send` is not quite store-silent — on a valid channel it
installs the fixed placeholder entry `{sha:'', sig:null, prv:null, pay:null}`
at `(channel, self)` whenever that pair has no entry yet, before the payload
check and before any engine call; apart from that it never modifies the
store (an existing entry is left untouched on every path, including error
and pending ones), never touches the subscriber table, and actual casts are
written to the store only by the externalization handler. -/
theorem claim_C1_send_store {α : Type} (C : Crypto) (pk sk : String)
    (st : NodeState α) (channel : String) (payload : Json) :
    (jsContains channel ':' = true → (send C pk sk st channel payload).1 = st) ∧
    (jsContains channel ':' = false →
      (send C pk sk st channel payload).1.receivers = st.receivers ∧
      (st.casts channel pk ≠ none → (send C pk sk st channel payload).1.casts = st.casts) ∧
      (st.casts channel pk = none →
        (send C pk sk st channel payload).1.casts = storeSet st.casts channel pk placeholder)) := by
  constructor
  · intro h
    simp [send, h]
  · intro h
    refine ⟨?_, ?_, ?_⟩
    · cases he : st.casts channel pk <;> simp [send, h, he]
    · intro hne
      cases he : st.casts channel pk with
      | none => exact absurd he hne
      | some e => simp [send, h, he]
    · intro he
      simp [send, h, he]

/-- Witness for C1: on an invalid channel the state is returned untouched,
and on a fresh valid channel exactly the placeholder is installed. -/
theorem claim_C1_witness :
    (send toyCrypto "PK" "SK" emptyNode "a:b" (Json.str "x")).1 = emptyNode ∧
    (send toyCrypto "PK" "SK" emptyNode "c" (Json.str "hi")).1.casts =
      storeSet emptyNode.casts "c" "PK" placeholder :=
  ⟨(claim_C1_send_store toyCrypto "PK" "SK" emptyNode "a:b" (Json.str "x")).1 rfl,
   ((claim_C1_send_store toyCrypto "PK" "SK" emptyNode "c" (Json.str "hi")).2 rfl).2.2 rfl⟩

/-- Counterexample to C1 as stated: a plain (pending, not yet externalized)
`send` on a fresh channel creates a cast-store entry at `(channel, self)` —
the store is not mutated exclusively by the externalization handler. -/
theorem claim_C1_cex :
    emptyNode.casts "c" "PK" = none ∧
    (send toyCrypto "PK" "SK" emptyNode "c" (Json.str "hi")).1.casts "c" "PK" =
      some placeholder ∧
    (send toyCrypto "PK" "SK" emptyNode "c" (Json.str "hi")).1.casts "c" "PK" ≠
      emptyNode.casts "c" "PK" :=
  ⟨rfl, rfl, fun h => Option.noConfusion h⟩

/-- C2 (amended): `send` on a channel containing `':'` reports
`invalid_channel` to the callback, makes no engine `request`, and leaves the
whole state unchanged; `send` on a valid channel with a non-string payload
reports `invalid_payload` and makes no engine `request`, leaving the
subscriber table unchanged and the store unchanged except for the
placeholder entry it first installs at `(channel, self)` when that pair had
no entry. -/
theorem claim_C2_send_errors {α : Type} (C : Crypto) (pk sk : String)
    (st : NodeState α) (channel : String) (payload : Json) :
    (jsContains channel ':' = true →
      send C pk sk st channel payload =
        (st, { cbErr := some "invalid_channel", request := none })) ∧
    (jsContains channel ':' = false → (∀ s, payload ≠ Json.str s) →
      (send C pk sk st channel payload).2 =
        { cbErr := some "invalid_payload", request := none } ∧
      (send C pk sk st channel payload).1.receivers = st.receivers ∧
      (st.casts channel pk ≠ none → (send C pk sk st channel payload).1.casts = st.casts) ∧
      (st.casts channel pk = none →
        (send C pk sk st channel payload).1.casts = storeSet st.casts channel pk placeholder)) := by
  constructor
  · intro h
    simp [send, h]
  · intro h hp
    refine ⟨?_, ?_, ?_, ?_⟩
    · cases payload with
      | str s => exact absurd rfl (hp s)
      | null => simp [send, h]
      | bool b => simp [send, h]
      | num n => simp [send, h]
      | arr l => simp [send, h]
      | obj l => simp [send, h]
    · cases he : st.casts channel pk <;> simp [send, h, he]
    · intro hne
      cases he : st.casts channel pk with
      | none => exact absurd he hne
      | some e => simp [send, h, he]
    · intro he
      simp [send, h, he]

/-- Witness for C2 at concrete inputs: the `invalid_channel` branch is fully
state-preserving, and the `invalid_payload` branch emits no request. -/
theorem claim_C2_witness :
    send toyCrypto "PK" "SK" nodeW "a:b" (Json.str "x") =
      (nodeW, { cbErr := some "invalid_channel", request := none }) ∧
    (send toyCrypto "PK" "SK" nodeW "c" (Json.num 5)).2 =
      { cbErr := some "invalid_payload", request := none } :=
  ⟨(claim_C2_send_errors toyCrypto "PK" "SK" nodeW "a:b" (Json.str "x")).1 rfl,
   (((claim_C2_send_errors toyCrypto "PK" "SK" nodeW "c" (Json.num 5)).2 rfl)
     (fun _ h => Json.noConfusion h)).1⟩

/-- Counterexample to C2 as stated: `send("c", 5, cb)` does report
`invalid_payload` and calls no engine `request`, but it does not leave the
node state unchanged — the cast store gains the placeholder entry at
`("c", self)`. -/
theorem claim_C2_cex :
    (send toyCrypto "PK" "SK" emptyNode "c" (Json.num 5)).2 =
      { cbErr := some "invalid_payload", request := none } ∧
    emptyNode.casts "c" "PK" = none ∧
    (send toyCrypto "PK" "SK" emptyNode "c" (Json.num 5)).1.casts "c" "PK" =
      some placeholder ∧
    (send toyCrypto "PK" "SK" emptyNode "c" (Json.num 5)).1.casts "c" "PK" ≠
      emptyNode.casts "c" "PK" :=
  ⟨rfl, rfl, rfl, fun h => Option.noConfusion h⟩

/-- C3 (amended): after externalization of a valid cast `k` for
`(channel, sender)` the store at the pair equals `k`; `reclaim` is issued on
`channel:sender:prior.sha` exactly once if and only if a prior store entry
existed at the pair — the previously externalized cast when one exists, but
possibly the placeholder `send` installed (whose `sha` is the empty string,
so the reclaimed id is `channel:sender:`); and every subscriber registered
on the channel is scheduled (in a fresh turn, modelled as the returned
dispatch list) with `(sender, k.sha, k.pay)` in registration order. -/
theorem claim_C3_externalization {α : Type} (C : Crypto) (st : NodeState α)
    (slot : String) (cast : Json) (f : String)
    (hf : slotSender slot = some f)
    (hv : verify_cast C f (slotChannel slot) cast = true) :
    (handle_value C st slot (some cast)).1.casts (slotChannel slot) f = some cast ∧
    (handle_value C st slot (some cast)).2.reclaims =
      (match st.casts (slotChannel slot) f with
       | some e => [slotChannel slot ++ ":" ++ f ++ ":" ++ jsShaStr e]
       | none => []) ∧
    (handle_value C st slot (some cast)).2.dispatch =
      (st.receivers (slotChannel slot)).map
        (fun cb => (cb, f, getField cast "sha", getField cast "pay")) ∧
    (handle_value C st slot (some cast)).2.logs = [] := by
  unfold handle_value
  simp only [hf, hv, if_true]
  exact ⟨by simp [storeSet], by trivial, by trivial, by trivial⟩

/-- Witness for C3: externalizing `goodCast` over a state whose `("c", "PK")`
entry is the placeholder stores the cast, reclaims the single prior slot id,
and schedules both subscribers in order. -/
theorem claim_C3_witness :
    (handle_value toyCrypto nodeW "c:PK:h..c.hi" (some goodCast)).1.casts
        (slotChannel "c:PK:h..c.hi") "PK" = some goodCast ∧
    (handle_value toyCrypto nodeW "c:PK:h..c.hi" (some goodCast)).2.dispatch =
      [(1, "PK", getField goodCast "sha", getField goodCast "pay"),
       (2, "PK", getField goodCast "sha", getField goodCast "pay")] := by
  have h := claim_C3_externalization toyCrypto nodeW "c:PK:h..c.hi" goodCast "PK" rfl rfl
  exact ⟨h.1, h.2.2.1⟩

/-- Counterexample to C3 as stated: in a run whose only prior event is a
(pending) `send`, no cast has ever been externalized for `("c", "PK")`
(ghost flag false), yet externalizing the first cast issues a `reclaim` —
on the degenerate slot id `"c:PK:"` derived from the placeholder — so
reclaim does not happen if and only if a prior externalized cast existed. -/
theorem claim_C3_cex :
    (stepEv toyCrypto "PK" "SK" emptyTrace (.sendEv "c" (.str "hi"))).1.extd "c" "PK" =
      false ∧
    (stepEv toyCrypto "PK" "SK"
        (stepEv toyCrypto "PK" "SK" emptyTrace (.sendEv "c" (.str "hi"))).1
        (.valueEv "c:PK:h..c.hi" (some goodCast))).2 = ["c:PK:"] :=
  ⟨rfl, by decide⟩

/-- C8: for a ballot whose value parses to a cast (four string fields),
`ballot_acceptor` refuses whenever `cast.prv` is nonempty and the store has
no entry at `(channel, sender)` or the entry's `sha` differs (strictly) from
`cast.prv`; when `cast.prv` is empty, or the entry's `sha` matches, the
verdict is exactly the application payload acceptor's on
`(sender, channel, cast.pay)`. -/
theorem claim_C8_ballot_acceptor (pa : Option String → String → Option Json → Bool)
    (casts : Store) (slot : Slot) (b : Ballot) (cast : Json)
    (sha sig prv pay : String)
    (hx : b.x = some cast)
    (hcf : castFields cast = some (sha, sig, prv, pay)) :
    (0 < prv.length →
      (casts (slotChannel slot.id) (keyOf (slotSender slot.id)) = none →
        ballot_acceptor pa casts slot b = false) ∧
      (∀ e, casts (slotChannel slot.id) (keyOf (slotSender slot.id)) = some e →
        jsStrictEqOpt (getField e "sha") (some (.str prv)) = false →
        ballot_acceptor pa casts slot b = false) ∧
      (∀ e, casts (slotChannel slot.id) (keyOf (slotSender slot.id)) = some e →
        jsStrictEqOpt (getField e "sha") (some (.str prv)) = true →
        ballot_acceptor pa casts slot b =
          pa (slotSender slot.id) (slotChannel slot.id) (some (.str pay)))) ∧
    (prv.length = 0 →
      ballot_acceptor pa casts slot b =
        pa (slotSender slot.id) (slotChannel slot.id) (some (.str pay))) := by
  obtain ⟨_, _, hprv, hpay⟩ := castFields_getField hcf
  constructor
  · intro hlen
    have hne : prvNonempty (some (Json.str prv)) = .ok true := by
      simp [prvNonempty, hlen]
    refine ⟨?_, ?_, ?_⟩
    · intro hstore
      unfold ballot_acceptor
      simp [hx, hprv, hne, hstore]
    · intro e hstore heq
      unfold ballot_acceptor
      simp [hx, hprv, hne, hstore, heq]
    · intro e hstore heq
      unfold ballot_acceptor
      cases hpa : pa (slotSender slot.id) (slotChannel slot.id) (some (.str pay)) <;>
        simp [hx, hprv, hne, hstore, heq, hpay, hpa]
  · intro hlen
    have hne : prvNonempty (some (Json.str prv)) = .ok false := by
      simp [prvNonempty, hlen]
    unfold ballot_acceptor
    cases hpa : pa (slotSender slot.id) (slotChannel slot.id) (some (.str pay)) <;>
      simp [hx, hprv, hne, hpay, hpa]

/-- Witness for C8: a first-in-chain cast (`prv = ""`) over an empty store is
judged exactly by the application acceptor (here the default, which accepts). -/
theorem claim_C8_witness :
    ballot_acceptor def_acceptor emptyNode.casts slotW { n := 0, x := some goodCast } =
      def_acceptor (slotSender slotW.id) (slotChannel slotW.id) (some (.str "hi")) :=
  (claim_C8_ballot_acceptor def_acceptor emptyNode.casts slotW
    { n := 0, x := some goodCast } goodCast "h..c.hi" "sg.h..c.hi" "" "hi" rfl rfl).2 rfl

/-- C10 (amended): `ballot_verifier` and `ballot_acceptor` are total — every
JavaScript exception path of the source is an explicit caught branch of the
embedding — and fail closed on malformed input as follows: on an unparseable
ballot value both return false; on a parsed cast lacking fields the verifier
returns false, and the acceptor returns false whenever reading `prv` throws
(`prv` missing or null); but the acceptor, which assumes the verifier
already ran, returns the application acceptor's verdict for a degenerate
cast whose `prv` is the empty string even if every other field is missing. -/
theorem claim_C10_fail_closed (C : Crypto)
    (pv pa : Option String → String → Option Json → Bool)
    (casts : Store) (now : Int) (slot : Slot) (b : Ballot) :
    (b.x = none → ballot_verifier C pv now slot b = false ∧
      ballot_acceptor pa casts slot b = false) ∧
    (∀ cast, b.x = some cast → castFields cast = none →
      ballot_verifier C pv now slot b = false) ∧
    (∀ cast, b.x = some cast →
      getField cast "prv" = none ∨ getField cast "prv" = some .null →
      ballot_acceptor pa casts slot b = false) := by
  refine ⟨?_, ?_, ?_⟩
  · intro h
    constructor
    · unfold ballot_verifier
      simp [h]
    · unfold ballot_acceptor
      simp [h]
  · intro cast hx hcf
    have hopt : verify_cast_opt C (slotSender slot.id) (slotChannel slot.id) cast =
        .ok false := by
      unfold verify_cast_opt
      cases hs : slotSender slot.id with
      | some f => simp [verify_cast, hcf]
      | none => simp [hcf]
    unfold ballot_verifier
    simp [hx, hopt]
  · intro cast hx hp
    have hne : prvNonempty (getField cast "prv") = .error () := by
      rcases hp with h | h <;> simp [h, prvNonempty]
    unfold ballot_acceptor
    simp [hx, hne]

/-- Witness for C10 on an unparseable ballot value: both callbacks refuse. -/
theorem claim_C10_witness :
    ballot_verifier toyCrypto def_verifier 0 slotW { n := 0, x := none } = false ∧
    ballot_acceptor def_acceptor emptyNode.casts slotW { n := 0, x := none } = false :=
  (claim_C10_fail_closed toyCrypto def_verifier def_acceptor emptyNode.casts 0 slotW
    { n := 0, x := none }).1 rfl

/-- Counterexample to C10 as stated: a parsed cast lacking `sha`, `sig` and
`pay` but carrying an empty-string `prv` makes `ballot_acceptor` (with the
default application acceptor) return true, not false. -/
theorem claim_C10_cex :
    ballot_acceptor def_acceptor emptyNode.casts slotW
      { n := 0, x := some (.obj [("prv", .str "")]) } = true := by
  decide

end Frost
